import Mathlib

/-!
# Verification of the Pull File VS Code extension workflow

This file embeds the `PullFile` class of `src/extension.ts` (and the later
revision of the same file) as executable Lean definitions and proves the
specification's testable properties about them.

The embedding models:
* the Node `path` module functions used by the code (`basename`, `dirname`,
  `extname`, `join`) for POSIX-style paths;
* the file system touched through `fs.readdirSync` / `fs.copyFileSync` as an
  association list of directory listings and file contents, where a lookup
  miss corresponds to the synchronous call throwing;
* the active `TextDocument` as a file name, an in-editor buffer and a dirty
  flag, with `save` and the host editor's reload of a clean document whose
  on-disk file changed externally (the behaviour the code's comments rely on:
  "save them first so the editor shows the external changes" / "the editor
  will show the change");
* one invocation of `Pull` as a function of the configuration, the initial
  editor/file-system state, and the user's choices in the quick pick and the
  open dialog, returning the final state together with the trace of
  save/copy effects and whether an exception propagated.
-/

namespace PullFile

/-! ## POSIX path model (the Node `path` functions used by the code) -/

/-- Split a character list at every `'/'` (the separator is dropped). -/
def splitSlash : List Char → List (List Char)
  | [] => [[]]
  | c :: rest =>
    let r := splitSlash rest
    if c = '/' then [] :: r
    else
      match r with
      | [] => [[c]]
      | h :: t => (c :: h) :: t

/-- Last element of a list of parts (empty when there is none). -/
def lastPart : List (List Char) → List Char
  | [] => []
  | [x] => x
  | _ :: x :: xs => lastPart (x :: xs)

/-- Interleave `'/'` between parts. -/
def joinParts : List (List Char) → List Char
  | [] => []
  | [x] => x
  | x :: y :: xs => x ++ '/' :: joinParts (y :: xs)

/-- `path.basename`: the final component of a path. -/
def basename (p : String) : String :=
  String.mk (lastPart (splitSlash p.data))

/-- `path.dirname`: everything before the final component, `"."` for a bare
name and `"/"` for a file at the root. -/
def dirname (p : String) : String :=
  let parts := splitSlash p.data
  if parts.length ≤ 1 then "."
  else
    let d := joinParts parts.dropLast
    if d = [] then "/" else String.mk d

/-- Index of the last occurrence of a character in a list, if any. -/
def lastIdxOf (c : Char) : List Char → Option Nat
  | [] => none
  | x :: xs =>
    match lastIdxOf c xs with
    | some i => some (i + 1)
    | none => if x = c then some 0 else none

/-- `path.extname`: from the last `.` of the basename to the end; empty when
there is no dot, when the dot starts the basename (dotfiles), or for `".."`. -/
def extname (p : String) : String :=
  let b := (basename p).data
  if b = ['.', '.'] then ""
  else
    match lastIdxOf '.' b with
    | none => ""
    | some 0 => ""
    | some i => String.mk (b.drop i)

/-- `path.join dir name` for the shapes the code produces (a directory from
`dirname` joined with a plain file name). -/
def joinPath (dir name : String) : String :=
  if dir = "." then name
  else if dir.data.getLast? = some '/' then dir ++ name
  else dir ++ "/" ++ name

/-! ## File system, document and effect model -/

/-- The file system as seen through `fs.readdirSync` and `fs.copyFileSync`:
directory listings and file contents, both as association lists. -/
structure FS where
  listing : List (String × List String)
  content : List (String × String)
deriving DecidableEq, Repr

/-- `fs.readdirSync dir`: `none` models the synchronous call throwing
(directory missing or unreadable). -/
def readdirSync (fs : FS) (dir : String) : Option (List String) :=
  fs.listing.lookup dir

/-- Read a file's content; `none` models a read failure. -/
def readFile (fs : FS) (p : String) : Option String :=
  fs.content.lookup p

/-- Overwrite (or create) the file at `p` with content `c`. -/
def writeFile (fs : FS) (p c : String) : FS :=
  { fs with content := (p, c) :: fs.content }

/-- `fs.copyFileSync src dest`: `none` models the call throwing because the
source cannot be read; on success `dest` holds `src`'s content. -/
def copyFileSync (fs : FS) (src dest : String) : Option FS :=
  match readFile fs src with
  | some c => some (writeFile fs dest c)
  | none => none

/-- The active `TextDocument`: its file name, in-editor text and dirty flag. -/
structure Document where
  fileName : String
  buffer : String
  isDirty : Bool
deriving DecidableEq, Repr

/-- `TextDocument.save`: commit the buffer to disk and clear the dirty flag. -/
def saveDoc (doc : Document) (fs : FS) : Document × FS :=
  ({ doc with isDirty := false }, writeFile fs doc.fileName doc.buffer)

/-- Host-editor behaviour the code relies on: a document with no unsaved
changes reloads from disk when its file is changed externally. -/
def reloadIfClean (doc : Document) (fs : FS) : Document :=
  if doc.isDirty then doc
  else
    match readFile fs doc.fileName with
    | some c => { doc with buffer := c }
    | none => doc

/-- Observable side effects of one invocation, in order of occurrence. -/
inductive Ev where
  | save (path content : String)
  | copy (src dest : String)
deriving DecidableEq, Repr

/-- Does a trace contain a save effect? -/
def containsSave (evs : List Ev) : Bool :=
  evs.any fun e =>
    match e with
    | .save _ _ => true
    | .copy _ _ => false

/-! ## The current revision (`src/extension.ts`) -/

/-- The sentinel quick-pick entry (`_useOpenDialogText`). -/
def useOpenDialogText : String := "Use Open Dialog..."

/-- The two settings read by the `PullFile` constructor. -/
structure Config where
  useQuickPick : Bool
  includeOpenDialogOptionInQuickPick : Bool
deriving DecidableEq, Repr

/-- The filter applied to each directory entry in
`GetFilesToShowInQuickPick`: keep `value` when it is not the active
document's base name and its extension equals the active document's. -/
def candidateFilter (activeFileName ext : String) (value : String) : Bool :=
  value != basename activeFileName && extname value == ext

/-- `GetFilesToShowInQuickPick`: an optional sentinel entry first, then the
directory entries passing `candidateFilter`, in listing order.  The source
assigns `filesToShow[currentIndex]` with `currentIndex` always equal to the
array's length, i.e. it appends. -/
def GetFilesToShowInQuickPick (includeOpenDialogOption : Bool)
    (filesInCurrentDirectory : List String) (activeFileName ext : String) :
    List String :=
  let filesToShow := if includeOpenDialogOption then [useOpenDialogText] else []
  filesInCurrentDirectory.foldl
    (fun acc value =>
      if candidateFilter activeFileName ext value then acc ++ [value] else acc)
    filesToShow

/-- Result of one invocation of `Pull`: final document and file system, the
trace of effects, whether an exception propagated, and the quick-pick list
that was presented (if the quick pick was shown). -/
structure PullResult where
  doc : Document
  fs : FS
  events : List Ev
  threw : Bool
  shown : Option (List String)
deriving DecidableEq, Repr

/-- `CopyFile`: if the document is dirty, `save()` then
`fs.copyFileSync(fileToPull, fileName)`; otherwise just the copy.  The
boolean is true when the copy threw (source unreadable); in the dirty case
the save has already happened by then. -/
def CopyFile (fileToPull : String) (doc : Document) (fs : FS) :
    Document × FS × List Ev × Bool :=
  if doc.isDirty then
    let (doc1, fs1) := saveDoc doc fs
    match copyFileSync fs1 fileToPull doc.fileName with
    | some fs2 =>
      (doc1, fs2, [.save doc.fileName doc.buffer, .copy fileToPull doc.fileName], false)
    | none => (doc1, fs1, [.save doc.fileName doc.buffer], true)
  else
    match copyFileSync fs fileToPull doc.fileName with
    | some fs2 => (doc, fs2, [.copy fileToPull doc.fileName], false)
    | none => (doc, fs, [], true)

/-- `CopyFile` followed by the host editor's external-change reload: when the
copy succeeded the active file changed on disk, so the (now clean) document
reloads; when the copy threw, no external change happened and the editor
state is left as `CopyFile` left it. -/
def applyCopy (fileToPull : String) (doc : Document) (fs : FS)
    (shown : Option (List String)) : PullResult :=
  let r := CopyFile fileToPull doc fs
  if r.2.2.2 then ⟨r.1, r.2.1, r.2.2.1, true, shown⟩
  else ⟨reloadIfClean r.1 r.2.1, r.2.1, r.2.2.1, false, shown⟩

/-- `SelectFile` (via `SelectFileWithQuickPick` / `SelectFileWithOpenDialog`):
resolve the user's choice to a file path.  `quickPickChoice` and
`dialogChoice` are what `showQuickPick` / `showOpenDialog` return (`none` is
cancellation).  `.error` models the quick-pick path's `readdirSync` throwing;
otherwise the result carries the resolved path (or `none`, in which case the
promise is never resolved and `Pull`'s continuation does nothing) and the
list that was shown. -/
def SelectFileE (cfg : Config) (doc : Document) (fs : FS)
    (quickPickChoice dialogChoice : Option String) :
    Except Unit (Option String × Option (List String)) :=
  if cfg.useQuickPick then
    match readdirSync fs (dirname doc.fileName) with
    | none => .error ()
    | some listing =>
      let shown := GetFilesToShowInQuickPick
        cfg.includeOpenDialogOptionInQuickPick listing doc.fileName
        (extname doc.fileName)
      match quickPickChoice with
      | none => .ok (none, some shown)
      | some selection =>
        if cfg.includeOpenDialogOptionInQuickPick
            && selection == useOpenDialogText then
          .ok (dialogChoice, some shown)
        else
          .ok (some (joinPath (dirname doc.fileName) selection), some shown)
  else
    .ok (dialogChoice, none)

/-- `Pull`: select a file; if one was selected, copy it over the active file.
An exception from the selection stage propagates with no effect. -/
def Pull (cfg : Config) (doc : Document) (fs : FS)
    (quickPickChoice dialogChoice : Option String) : PullResult :=
  match SelectFileE cfg doc fs quickPickChoice dialogChoice with
  | .error _ => ⟨doc, fs, [], true, none⟩
  | .ok (none, shown) => ⟨doc, fs, [], false, shown⟩
  | .ok (some fileToPull, shown) => applyCopy fileToPull doc fs shown

/-! ## The later revision (the unnamed source file)

In that revision `SelectFileWithQuickPick` and `SelectFileWithOpenDialog` are
declared to return `string`, but their `return` statements sit inside the
`.then` callbacks, whose results are discarded; each method body falls off
its end, so each call evaluates to `undefined` (`none` here).  The
`let _discarded...` bindings embed the callback's computation verbatim to
show it is performed and then dropped. -/

/-- Revision 2 `SelectFileWithOpenDialog`: the `return fileUri[0].fsPath`
is inside the discarded `.then` callback; the method returns `undefined`. -/
def SelectFileWithOpenDialogR2 (dialogChoice : Option String) : Option String :=
  let _discardedCallbackResult : Option String :=
    match dialogChoice with
    | some p => some p
    | none => none
  none

/-- Revision 2 `SelectFileWithQuickPick`: both `return`s are inside the
discarded `.then` callback; the method returns `undefined`. -/
def SelectFileWithQuickPickR2 (includeOpenDialogOption : Bool) (dir : String)
    (quickPickChoice dialogChoice : Option String) : Option String :=
  let _discardedCallbackResult : Option String :=
    match quickPickChoice with
    | some selection =>
      if includeOpenDialogOption && selection == useOpenDialogText then
        SelectFileWithOpenDialogR2 dialogChoice
      else
        some (joinPath dir selection)
    | none => none
  none

/-- Revision 2 `SelectFile`: resolve the promise to whichever method the
configuration picks (both of which return `undefined`). -/
def SelectFileR2 (cfg : Config) (dir : String)
    (quickPickChoice dialogChoice : Option String) : Option String :=
  if cfg.useQuickPick then
    SelectFileWithQuickPickR2 cfg.includeOpenDialogOptionInQuickPick dir
      quickPickChoice dialogChoice
  else
    SelectFileWithOpenDialogR2 dialogChoice

/-- Revision 2 `Pull`.  On the quick-pick path `ShowQuickPick` still runs
`readdirSync` synchronously inside the promise executor, so a missing folder
still rejects the promise; otherwise `SelectFile`'s value decides whether
`CopyFile` runs. -/
def PullR2 (cfg : Config) (doc : Document) (fs : FS)
    (quickPickChoice dialogChoice : Option String) : PullResult :=
  if cfg.useQuickPick then
    match readdirSync fs (dirname doc.fileName) with
    | none => ⟨doc, fs, [], true, none⟩
    | some listing =>
      let shown := GetFilesToShowInQuickPick
        cfg.includeOpenDialogOptionInQuickPick listing doc.fileName
        (extname doc.fileName)
      match SelectFileWithQuickPickR2 cfg.includeOpenDialogOptionInQuickPick
          (dirname doc.fileName) quickPickChoice dialogChoice with
      | some fileToPull => applyCopy fileToPull doc fs (some shown)
      | none => ⟨doc, fs, [], false, some shown⟩
  else
    match SelectFileWithOpenDialogR2 dialogChoice with
    | some fileToPull => applyCopy fileToPull doc fs none
    | none => ⟨doc, fs, [], false, none⟩

/-! ## Helper lemmas -/

/-- Appending under a filter condition in a left fold is the same as
appending the filtered list to the accumulator. -/
theorem foldl_append_filter (p : String → Bool) (l : List String) :
    ∀ init : List String,
      l.foldl (fun acc v => if p v then acc ++ [v] else acc) init
        = init ++ l.filter p := by
  induction l with
  | nil => intro init; simp
  | cons h t ih =>
    intro init
    by_cases hp : p h
    · simp [List.foldl, hp, ih, List.filter_cons]
    · simp [List.foldl, hp, ih, List.filter_cons]

/-- The quick-pick list is the optional sentinel followed by the filtered
directory listing. -/
theorem getFiles_eq (inc : Bool) (listing : List String) (fn ext : String) :
    GetFilesToShowInQuickPick inc listing fn ext
      = (if inc then [useOpenDialogText] else [])
          ++ listing.filter (candidateFilter fn ext) := by
  simp [GetFilesToShowInQuickPick, foldl_append_filter]

/-- Reading back a freshly written file. -/
theorem readFile_writeFile_self (fs : FS) (p c : String) :
    readFile (writeFile fs p c) p = some c := by
  simp [readFile, writeFile, List.lookup]

/-- Writing one file leaves reads of a different path unchanged. -/
theorem readFile_writeFile_ne (fs : FS) {p q : String} (h : p ≠ q) (c : String) :
    readFile (writeFile fs q c) p = readFile fs p := by
  have hbeq : (p == q) = false := by simp [h]
  simp [readFile, writeFile, List.lookup, hbeq]

/-- Characterization of `CopyFile` + reload when the source is readable and
distinct from the active file: the document ends with the pulled content and
a clear dirty flag, the active file on disk holds the pulled content, the
save effect occurs (before the copy) exactly when the document was dirty,
and nothing throws. -/
theorem applyCopy_success (f : String) (doc : Document) (fs : FS)
    (shown : Option (List String)) (content : String)
    (hne : f ≠ doc.fileName) (hread : readFile fs f = some content) :
    applyCopy f doc fs shown =
      ⟨⟨doc.fileName, content, false⟩,
       writeFile (if doc.isDirty then writeFile fs doc.fileName doc.buffer else fs)
         doc.fileName content,
       (if doc.isDirty then [Ev.save doc.fileName doc.buffer] else [])
         ++ [Ev.copy f doc.fileName],
       false, shown⟩ := by
  obtain ⟨fn, buf, dirty⟩ := doc
  simp only [Document.fileName] at hne hread
  cases dirty with
  | false =>
    simp [applyCopy, CopyFile, copyFileSync, hread, reloadIfClean,
      readFile_writeFile_self]
  | true =>
    simp [applyCopy, CopyFile, saveDoc, copyFileSync,
      readFile_writeFile_ne _ hne, hread, reloadIfClean,
      readFile_writeFile_self]

/-- Characterization of `CopyFile` + reload when the source is unreadable:
the copy throws and is never performed; the buffer keeps its text; when the
document was clean nothing at all changes, and when it was dirty only the
pre-copy save has happened. -/
theorem applyCopy_fail (f : String) (doc : Document) (fs : FS)
    (shown : Option (List String))
    (hne : f ≠ doc.fileName) (hread : readFile fs f = none) :
    applyCopy f doc fs shown =
      if doc.isDirty then
        ⟨⟨doc.fileName, doc.buffer, false⟩, writeFile fs doc.fileName doc.buffer,
         [Ev.save doc.fileName doc.buffer], true, shown⟩
      else
        ⟨doc, fs, [], true, shown⟩ := by
  obtain ⟨fn, buf, dirty⟩ := doc
  simp only [Document.fileName] at hne hread
  cases dirty with
  | false =>
    simp [applyCopy, CopyFile, copyFileSync, hread]
  | true =>
    simp [applyCopy, CopyFile, saveDoc, copyFileSync,
      readFile_writeFile_ne _ hne, hread]

/-! ## Claim theorems -/

/-- C2: with the list-picker configured, the quick-pick list is the optional
sentinel followed by exactly the directory entries whose extension equals the
active document's extension, excluding the active document's own file name;
in particular for a folder listing `[a.txt, b.txt, c.md]` with active
document `a.txt` the candidates are exactly `[b.txt]`. -/
theorem candidate_list_exact :
    (∀ (inc : Bool) (listing : List String) (fn ext : String),
        GetFilesToShowInQuickPick inc listing fn ext
          = (if inc then [useOpenDialogText] else [])
              ++ listing.filter fun v => v != basename fn && extname v == ext)
      ∧ (∀ inc : Bool,
          GetFilesToShowInQuickPick inc ["a.txt", "b.txt", "c.md"] "/d/a.txt"
              (extname "/d/a.txt")
            = (if inc then [useOpenDialogText] else []) ++ ["b.txt"]) := by
  constructor
  · intro inc listing fn ext
    exact getFiles_eq inc listing fn ext
  · intro inc
    cases inc <;> decide

/-- C6: the quick-pick list begins with the sentinel entry iff
`includeOpenDialogOptionInQuickPick` is true; with the option false the list
is exactly the candidates (no sentinel entry is added), and with zero
candidates the picker is shown with an empty list and the invocation does
nothing, regardless of any open-dialog choice (no fallback to the dialog). -/
theorem sentinel_presence_iff_option :
    (∀ (listing : List String) (fn ext : String),
        GetFilesToShowInQuickPick true listing fn ext
          = useOpenDialogText :: listing.filter (candidateFilter fn ext))
      ∧ (∀ (listing : List String) (fn ext : String),
          GetFilesToShowInQuickPick false listing fn ext
            = listing.filter (candidateFilter fn ext))
      ∧ (∀ (cfg : Config) (doc : Document) (fs : FS)
            (dialogChoice : Option String) (listing : List String),
          cfg.useQuickPick = true →
          cfg.includeOpenDialogOptionInQuickPick = false →
          readdirSync fs (dirname doc.fileName) = some listing →
          listing.filter (candidateFilter doc.fileName (extname doc.fileName))
              = [] →
          Pull cfg doc fs none dialogChoice = ⟨doc, fs, [], false, some []⟩) := by
  refine ⟨fun listing fn ext => by simp [getFiles_eq],
    fun listing fn ext => by simp [getFiles_eq], ?_⟩
  intro cfg doc fs dialogChoice listing hq hinc hr hempty
  obtain ⟨uq, inc⟩ := cfg
  simp only at hq hinc
  subst hq
  subst hinc
  simp [Pull, SelectFileE, hr, getFiles_eq, hempty]

/-- C6 witness: a folder whose only entries are the active file and a file of
another extension, with the sentinel option off: the picker is shown with the
empty list and nothing happens although a dialog choice was available. -/
theorem sentinel_presence_iff_option_witness :
    readdirSync ⟨[("/d", ["a.txt", "c.md"])], [("/d/c.md", "M")]⟩
        (dirname "/d/a.txt") = some ["a.txt", "c.md"]
      ∧ ["a.txt", "c.md"].filter
          (candidateFilter "/d/a.txt" (extname "/d/a.txt")) = []
      ∧ Pull ⟨true, false⟩ ⟨"/d/a.txt", "x", false⟩
          ⟨[("/d", ["a.txt", "c.md"])], [("/d/c.md", "M")]⟩ none (some "/d/c.md")
          = ⟨⟨"/d/a.txt", "x", false⟩,
             ⟨[("/d", ["a.txt", "c.md"])], [("/d/c.md", "M")]⟩, [], false,
             some []⟩ :=
  ⟨by decide, by decide,
    sentinel_presence_iff_option.2.2 ⟨true, false⟩ ⟨"/d/a.txt", "x", false⟩
      ⟨[("/d", ["a.txt", "c.md"])], [("/d/c.md", "M")]⟩ (some "/d/c.md")
      ["a.txt", "c.md"] rfl rfl (by decide) (by decide)⟩

/-- C3: cancelling at any selection stage (declining the quick pick,
declining the native dialog, or picking the sentinel and then declining the
dialog) leaves the document and the file system unchanged, produces no save
or copy effect, and throws nothing. -/
theorem cancel_leaves_state_unchanged :
    (∀ (cfg : Config) (doc : Document) (fs : FS) (dialogChoice : Option String)
        (listing : List String),
        cfg.useQuickPick = true →
        readdirSync fs (dirname doc.fileName) = some listing →
        Pull cfg doc fs none dialogChoice
          = ⟨doc, fs, [], false,
             some (GetFilesToShowInQuickPick
               cfg.includeOpenDialogOptionInQuickPick listing doc.fileName
               (extname doc.fileName))⟩)
      ∧ (∀ (cfg : Config) (doc : Document) (fs : FS)
            (quickPickChoice : Option String),
          cfg.useQuickPick = false →
          Pull cfg doc fs quickPickChoice none = ⟨doc, fs, [], false, none⟩)
      ∧ (∀ (cfg : Config) (doc : Document) (fs : FS) (listing : List String),
          cfg.useQuickPick = true →
          cfg.includeOpenDialogOptionInQuickPick = true →
          readdirSync fs (dirname doc.fileName) = some listing →
          Pull cfg doc fs (some useOpenDialogText) none
            = ⟨doc, fs, [], false,
               some (GetFilesToShowInQuickPick true listing doc.fileName
                 (extname doc.fileName))⟩) := by
  refine ⟨?_, ?_, ?_⟩
  · intro cfg doc fs dialogChoice listing hq hr
    obtain ⟨uq, inc⟩ := cfg
    simp only at hq
    subst hq
    simp [Pull, SelectFileE, hr]
  · intro cfg doc fs quickPickChoice hq
    obtain ⟨uq, inc⟩ := cfg
    simp only at hq
    subst hq
    simp [Pull, SelectFileE]
  · intro cfg doc fs listing hq hinc hr
    obtain ⟨uq, inc⟩ := cfg
    simp only at hq hinc
    subst hq
    subst hinc
    simp [Pull, SelectFileE, hr]

/-- C3 witness: a dirty document survives all three cancellation routes
untouched. -/
theorem cancel_leaves_state_unchanged_witness :
    readdirSync ⟨[("/d", ["a.txt", "b.txt"])], []⟩ (dirname "/d/a.txt")
        = some ["a.txt", "b.txt"]
      ∧ Pull ⟨true, true⟩ ⟨"/d/a.txt", "old", true⟩
          ⟨[("/d", ["a.txt", "b.txt"])], []⟩ none (some "/d/b.txt")
          = ⟨⟨"/d/a.txt", "old", true⟩, ⟨[("/d", ["a.txt", "b.txt"])], []⟩,
             [], false, some [useOpenDialogText, "b.txt"]⟩
      ∧ Pull ⟨false, true⟩ ⟨"/d/a.txt", "old", true⟩
          ⟨[("/d", ["a.txt", "b.txt"])], []⟩ (some "b.txt") none
          = ⟨⟨"/d/a.txt", "old", true⟩, ⟨[("/d", ["a.txt", "b.txt"])], []⟩,
             [], false, none⟩
      ∧ Pull ⟨true, true⟩ ⟨"/d/a.txt", "old", true⟩
          ⟨[("/d", ["a.txt", "b.txt"])], []⟩ (some useOpenDialogText) none
          = ⟨⟨"/d/a.txt", "old", true⟩, ⟨[("/d", ["a.txt", "b.txt"])], []⟩,
             [], false, some [useOpenDialogText, "b.txt"]⟩ :=
  ⟨by decide,
    cancel_leaves_state_unchanged.1 ⟨true, true⟩ ⟨"/d/a.txt", "old", true⟩
      ⟨[("/d", ["a.txt", "b.txt"])], []⟩ (some "/d/b.txt") ["a.txt", "b.txt"]
      rfl (by decide),
    cancel_leaves_state_unchanged.2.1 ⟨false, true⟩ ⟨"/d/a.txt", "old", true⟩
      ⟨[("/d", ["a.txt", "b.txt"])], []⟩ (some "b.txt") rfl,
    cancel_leaves_state_unchanged.2.2 ⟨true, true⟩ ⟨"/d/a.txt", "old", true⟩
      ⟨[("/d", ["a.txt", "b.txt"])], []⟩ ["a.txt", "b.txt"] rfl rfl
      (by decide)⟩

/-- C5: when the sentinel option is on and the quick-pick selection equals
"Use Open Dialog...", the selection resolves to exactly the open dialog's
result — never to a file joined from the list — and the invocation's
document, file system, effects and exception status coincide with those of a
native-dialog invocation, whatever the candidate list contains. -/
theorem sentinel_selection_routes_to_dialog :
    ∀ (cfg : Config) (doc : Document) (fs : FS) (dialogChoice : Option String)
      (listing : List String),
      cfg.useQuickPick = true →
      cfg.includeOpenDialogOptionInQuickPick = true →
      readdirSync fs (dirname doc.fileName) = some listing →
      SelectFileE cfg doc fs (some useOpenDialogText) dialogChoice
          = .ok (dialogChoice,
              some (GetFilesToShowInQuickPick true listing doc.fileName
                (extname doc.fileName)))
        ∧ (Pull cfg doc fs (some useOpenDialogText) dialogChoice).doc
            = (Pull ⟨false, true⟩ doc fs none dialogChoice).doc
        ∧ (Pull cfg doc fs (some useOpenDialogText) dialogChoice).fs
            = (Pull ⟨false, true⟩ doc fs none dialogChoice).fs
        ∧ (Pull cfg doc fs (some useOpenDialogText) dialogChoice).events
            = (Pull ⟨false, true⟩ doc fs none dialogChoice).events
        ∧ (Pull cfg doc fs (some useOpenDialogText) dialogChoice).threw
            = (Pull ⟨false, true⟩ doc fs none dialogChoice).threw := by
  intro cfg doc fs dialogChoice listing hq hinc hr
  obtain ⟨uq, inc⟩ := cfg
  simp only at hq hinc
  subst hq
  subst hinc
  refine ⟨by simp [SelectFileE, hr], ?_⟩
  cases dialogChoice with
  | none => simp [Pull, SelectFileE, hr]
  | some p =>
    cases hthrew : (CopyFile p doc fs).2.2.2 <;>
      simp [Pull, SelectFileE, hr, applyCopy, hthrew]

/-- C5 witness: the folder contains a real candidate file literally named
"Use Open Dialog..." (active document `/d/a.`, whose extension is `.`), yet
picking that string routes to the dialog and pulls the dialog's file `b.txt`,
not the identically named candidate. -/
theorem sentinel_selection_routes_to_dialog_witness :
    readdirSync ⟨[("/d", ["a.", "Use Open Dialog..."])],
          [("/d/b.txt", "B"), ("/d/Use Open Dialog...", "FAKE")]⟩
        (dirname "/d/a.") = some ["a.", "Use Open Dialog..."]
      ∧ (SelectFileE ⟨true, true⟩ ⟨"/d/a.", "x", false⟩
            ⟨[("/d", ["a.", "Use Open Dialog..."])],
             [("/d/b.txt", "B"), ("/d/Use Open Dialog...", "FAKE")]⟩
            (some useOpenDialogText) (some "/d/b.txt")
            = .ok (some "/d/b.txt",
                some (GetFilesToShowInQuickPick true ["a.", "Use Open Dialog..."]
                  "/d/a." (extname "/d/a.")))
          ∧ (Pull ⟨true, true⟩ ⟨"/d/a.", "x", false⟩
                ⟨[("/d", ["a.", "Use Open Dialog..."])],
                 [("/d/b.txt", "B"), ("/d/Use Open Dialog...", "FAKE")]⟩
                (some useOpenDialogText) (some "/d/b.txt")).doc
              = (Pull ⟨false, true⟩ ⟨"/d/a.", "x", false⟩
                  ⟨[("/d", ["a.", "Use Open Dialog..."])],
                   [("/d/b.txt", "B"), ("/d/Use Open Dialog...", "FAKE")]⟩
                  none (some "/d/b.txt")).doc
          ∧ (Pull ⟨true, true⟩ ⟨"/d/a.", "x", false⟩
                ⟨[("/d", ["a.", "Use Open Dialog..."])],
                 [("/d/b.txt", "B"), ("/d/Use Open Dialog...", "FAKE")]⟩
                (some useOpenDialogText) (some "/d/b.txt")).fs
              = (Pull ⟨false, true⟩ ⟨"/d/a.", "x", false⟩
                  ⟨[("/d", ["a.", "Use Open Dialog..."])],
                   [("/d/b.txt", "B"), ("/d/Use Open Dialog...", "FAKE")]⟩
                  none (some "/d/b.txt")).fs
          ∧ (Pull ⟨true, true⟩ ⟨"/d/a.", "x", false⟩
                ⟨[("/d", ["a.", "Use Open Dialog..."])],
                 [("/d/b.txt", "B"), ("/d/Use Open Dialog...", "FAKE")]⟩
                (some useOpenDialogText) (some "/d/b.txt")).events
              = (Pull ⟨false, true⟩ ⟨"/d/a.", "x", false⟩
                  ⟨[("/d", ["a.", "Use Open Dialog..."])],
                   [("/d/b.txt", "B"), ("/d/Use Open Dialog...", "FAKE")]⟩
                  none (some "/d/b.txt")).events
          ∧ (Pull ⟨true, true⟩ ⟨"/d/a.", "x", false⟩
                ⟨[("/d", ["a.", "Use Open Dialog..."])],
                 [("/d/b.txt", "B"), ("/d/Use Open Dialog...", "FAKE")]⟩
                (some useOpenDialogText) (some "/d/b.txt")).threw
              = (Pull ⟨false, true⟩ ⟨"/d/a.", "x", false⟩
                  ⟨[("/d", ["a.", "Use Open Dialog..."])],
                   [("/d/b.txt", "B"), ("/d/Use Open Dialog...", "FAKE")]⟩
                  none (some "/d/b.txt")).threw)
      ∧ (Pull ⟨true, true⟩ ⟨"/d/a.", "x", false⟩
            ⟨[("/d", ["a.", "Use Open Dialog..."])],
             [("/d/b.txt", "B"), ("/d/Use Open Dialog...", "FAKE")]⟩
            (some useOpenDialogText) (some "/d/b.txt")).doc.buffer = "B" :=
  ⟨by decide,
    sentinel_selection_routes_to_dialog ⟨true, true⟩ ⟨"/d/a.", "x", false⟩
      ⟨[("/d", ["a.", "Use Open Dialog..."])],
       [("/d/b.txt", "B"), ("/d/Use Open Dialog...", "FAKE")]⟩
      (some "/d/b.txt") ["a.", "Use Open Dialog..."] rfl rfl (by decide),
    by decide⟩

/-- C1 counterexample: a successful pull into a clean document performs no
save at all — its effect trace is exactly one copy — refuting the claim that
the document is explicitly saved after the replacement, unconditionally. -/
theorem no_save_after_replacement :
    (Pull ⟨true, true⟩ ⟨"/d/a.txt", "old", false⟩
        ⟨[("/d", ["a.txt", "b.txt"])], [("/d/a.txt", "old"), ("/d/b.txt", "SRC")]⟩
        (some "b.txt") none).events = [Ev.copy "/d/b.txt" "/d/a.txt"]
      ∧ containsSave (Pull ⟨true, true⟩ ⟨"/d/a.txt", "old", false⟩
          ⟨[("/d", ["a.txt", "b.txt"])],
           [("/d/a.txt", "old"), ("/d/b.txt", "SRC")]⟩
          (some "b.txt") none).events = false
      ∧ (Pull ⟨true, true⟩ ⟨"/d/a.txt", "old", false⟩
          ⟨[("/d", ["a.txt", "b.txt"])],
           [("/d/a.txt", "old"), ("/d/b.txt", "SRC")]⟩
          (some "b.txt") none).threw = false
      ∧ (Pull ⟨true, true⟩ ⟨"/d/a.txt", "old", false⟩
          ⟨[("/d", ["a.txt", "b.txt"])],
           [("/d/a.txt", "old"), ("/d/b.txt", "SRC")]⟩
          (some "b.txt") none).doc.buffer = "SRC" := by
  decide

/-- C1 (amended): after a successful pull of a readable source file distinct
from the active file, the document's text equals the source content
byte-for-byte and its dirty flag is false; but no save is issued after the
replacement — a save occurs before the copy and only when the document was
dirty, and the final clean in-editor text comes from the host reloading the
externally overwritten file. -/
theorem pull_success_final_state :
    ∀ (cfg : Config) (doc : Document) (fs : FS)
      (quickPickChoice dialogChoice : Option String) (f : String)
      (shown : Option (List String)) (content : String),
      SelectFileE cfg doc fs quickPickChoice dialogChoice = .ok (some f, shown) →
      f ≠ doc.fileName →
      readFile fs f = some content →
      (Pull cfg doc fs quickPickChoice dialogChoice).doc.buffer = content
        ∧ (Pull cfg doc fs quickPickChoice dialogChoice).doc.isDirty = false
        ∧ readFile (Pull cfg doc fs quickPickChoice dialogChoice).fs doc.fileName
            = some content
        ∧ (Pull cfg doc fs quickPickChoice dialogChoice).threw = false
        ∧ (Pull cfg doc fs quickPickChoice dialogChoice).events
            = (if doc.isDirty then [Ev.save doc.fileName doc.buffer] else [])
                ++ [Ev.copy f doc.fileName] := by
  intro cfg doc fs quickPickChoice dialogChoice f shown content hsel hne hread
  have h := applyCopy_success f doc fs shown content hne hread
  simp [Pull, hsel, h, readFile_writeFile_self]

/-- C1 witness: a clean document pulls `b.txt` through the quick pick. -/
theorem pull_success_final_state_witness :
    SelectFileE ⟨true, true⟩ ⟨"/d/a.txt", "old", false⟩
        ⟨[("/d", ["a.txt", "b.txt"])], [("/d/a.txt", "old"), ("/d/b.txt", "SRC")]⟩
        (some "b.txt") none
        = .ok (some "/d/b.txt", some [useOpenDialogText, "b.txt"])
      ∧ "/d/b.txt" ≠ "/d/a.txt"
      ∧ readFile ⟨[("/d", ["a.txt", "b.txt"])],
          [("/d/a.txt", "old"), ("/d/b.txt", "SRC")]⟩ "/d/b.txt" = some "SRC"
      ∧ ((Pull ⟨true, true⟩ ⟨"/d/a.txt", "old", false⟩
            ⟨[("/d", ["a.txt", "b.txt"])],
             [("/d/a.txt", "old"), ("/d/b.txt", "SRC")]⟩
            (some "b.txt") none).doc.buffer = "SRC"
          ∧ (Pull ⟨true, true⟩ ⟨"/d/a.txt", "old", false⟩
              ⟨[("/d", ["a.txt", "b.txt"])],
               [("/d/a.txt", "old"), ("/d/b.txt", "SRC")]⟩
              (some "b.txt") none).doc.isDirty = false
          ∧ readFile (Pull ⟨true, true⟩ ⟨"/d/a.txt", "old", false⟩
              ⟨[("/d", ["a.txt", "b.txt"])],
               [("/d/a.txt", "old"), ("/d/b.txt", "SRC")]⟩
              (some "b.txt") none).fs "/d/a.txt" = some "SRC"
          ∧ (Pull ⟨true, true⟩ ⟨"/d/a.txt", "old", false⟩
              ⟨[("/d", ["a.txt", "b.txt"])],
               [("/d/a.txt", "old"), ("/d/b.txt", "SRC")]⟩
              (some "b.txt") none).threw = false
          ∧ (Pull ⟨true, true⟩ ⟨"/d/a.txt", "old", false⟩
              ⟨[("/d", ["a.txt", "b.txt"])],
               [("/d/a.txt", "old"), ("/d/b.txt", "SRC")]⟩
              (some "b.txt") none).events
              = [Ev.copy "/d/b.txt" "/d/a.txt"]) :=
  ⟨rfl, by decide, by decide,
    pull_success_final_state ⟨true, true⟩ ⟨"/d/a.txt", "old", false⟩
      ⟨[("/d", ["a.txt", "b.txt"])], [("/d/a.txt", "old"), ("/d/b.txt", "SRC")]⟩
      (some "b.txt") none "/d/b.txt" (some [useOpenDialogText, "b.txt"]) "SRC"
      rfl (by decide) (by decide)⟩

/-- C4: when the document is dirty at pull time, the save effect strictly
precedes the copy effect, and after a successful pull of a distinct readable
source the document and its on-disk file both hold exactly the pulled
content, clean — the prior unsaved text survives nowhere. -/
theorem dirty_saved_before_overwrite :
    ∀ (cfg : Config) (doc : Document) (fs : FS)
      (quickPickChoice dialogChoice : Option String) (f : String)
      (shown : Option (List String)) (content : String),
      doc.isDirty = true →
      SelectFileE cfg doc fs quickPickChoice dialogChoice = .ok (some f, shown) →
      f ≠ doc.fileName →
      readFile fs f = some content →
      (Pull cfg doc fs quickPickChoice dialogChoice).events
          = [Ev.save doc.fileName doc.buffer, Ev.copy f doc.fileName]
        ∧ (Pull cfg doc fs quickPickChoice dialogChoice).doc
            = ⟨doc.fileName, content, false⟩
        ∧ readFile (Pull cfg doc fs quickPickChoice dialogChoice).fs doc.fileName
            = some content
        ∧ (Pull cfg doc fs quickPickChoice dialogChoice).threw = false := by
  intro cfg doc fs quickPickChoice dialogChoice f shown content hd hsel hne hread
  have h := applyCopy_success f doc fs shown content hne hread
  simp [Pull, hsel, h, hd, readFile_writeFile_self]

/-- C4 witness: a document with unsaved text "UNSAVED" pulls `b.txt`; the
save precedes the copy and "UNSAVED" is gone from buffer and disk. -/
theorem dirty_saved_before_overwrite_witness :
    (⟨"/d/a.txt", "UNSAVED", true⟩ : Document).isDirty = true
      ∧ SelectFileE ⟨true, true⟩ ⟨"/d/a.txt", "UNSAVED", true⟩
          ⟨[("/d", ["a.txt", "b.txt"])], [("/d/a.txt", "old"), ("/d/b.txt", "SRC")]⟩
          (some "b.txt") none
          = .ok (some "/d/b.txt", some [useOpenDialogText, "b.txt"])
      ∧ ((Pull ⟨true, true⟩ ⟨"/d/a.txt", "UNSAVED", true⟩
            ⟨[("/d", ["a.txt", "b.txt"])],
             [("/d/a.txt", "old"), ("/d/b.txt", "SRC")]⟩
            (some "b.txt") none).events
            = [Ev.save "/d/a.txt" "UNSAVED", Ev.copy "/d/b.txt" "/d/a.txt"]
          ∧ (Pull ⟨true, true⟩ ⟨"/d/a.txt", "UNSAVED", true⟩
              ⟨[("/d", ["a.txt", "b.txt"])],
               [("/d/a.txt", "old"), ("/d/b.txt", "SRC")]⟩
              (some "b.txt") none).doc = ⟨"/d/a.txt", "SRC", false⟩
          ∧ readFile (Pull ⟨true, true⟩ ⟨"/d/a.txt", "UNSAVED", true⟩
              ⟨[("/d", ["a.txt", "b.txt"])],
               [("/d/a.txt", "old"), ("/d/b.txt", "SRC")]⟩
              (some "b.txt") none).fs "/d/a.txt" = some "SRC"
          ∧ (Pull ⟨true, true⟩ ⟨"/d/a.txt", "UNSAVED", true⟩
              ⟨[("/d", ["a.txt", "b.txt"])],
               [("/d/a.txt", "old"), ("/d/b.txt", "SRC")]⟩
              (some "b.txt") none).threw = false) :=
  ⟨by decide, rfl,
    dirty_saved_before_overwrite ⟨true, true⟩ ⟨"/d/a.txt", "UNSAVED", true⟩
      ⟨[("/d", ["a.txt", "b.txt"])], [("/d/a.txt", "old"), ("/d/b.txt", "SRC")]⟩
      (some "b.txt") none "/d/b.txt" (some [useOpenDialogText, "b.txt"]) "SRC"
      (by decide) rfl (by decide) (by decide)⟩

/-- C7 counterexample: with a dirty document and an unreadable source, the
read failure does propagate and no replacement runs, but the active file on
disk is not left untouched: the pre-copy save has overwritten it ("old"
became "EDITS") before the failure. -/
theorem read_failure_dirty_disk_changed :
    readFile ⟨[("/d", ["a.txt"])], [("/d/a.txt", "old")]⟩ "/d/a.txt" = some "old"
      ∧ readFile ⟨[("/d", ["a.txt"])], [("/d/a.txt", "old")]⟩ "/d/x.txt" = none
      ∧ (Pull ⟨false, true⟩ ⟨"/d/a.txt", "EDITS", true⟩
          ⟨[("/d", ["a.txt"])], [("/d/a.txt", "old")]⟩ none
          (some "/d/x.txt")).threw = true
      ∧ readFile (Pull ⟨false, true⟩ ⟨"/d/a.txt", "EDITS", true⟩
          ⟨[("/d", ["a.txt"])], [("/d/a.txt", "old")]⟩ none
          (some "/d/x.txt")).fs "/d/a.txt" = some "EDITS"
      ∧ (Pull ⟨false, true⟩ ⟨"/d/a.txt", "EDITS", true⟩
          ⟨[("/d", ["a.txt"])], [("/d/a.txt", "old")]⟩ none
          (some "/d/x.txt")).events = [Ev.save "/d/a.txt" "EDITS"] := by
  decide

/-- C7 (amended): when the selected source is unreadable, the failure
propagates from the read and the replacement never executes; the document's
buffer and path are unchanged, and when the document was clean nothing at
all changes — but when it was dirty, the pre-copy save has already committed
the buffer to the active file on disk. -/
theorem read_failure_no_replace :
    ∀ (cfg : Config) (doc : Document) (fs : FS)
      (quickPickChoice dialogChoice : Option String) (f : String)
      (shown : Option (List String)),
      SelectFileE cfg doc fs quickPickChoice dialogChoice = .ok (some f, shown) →
      f ≠ doc.fileName →
      readFile fs f = none →
      (Pull cfg doc fs quickPickChoice dialogChoice).threw = true
        ∧ (Pull cfg doc fs quickPickChoice dialogChoice).doc.buffer = doc.buffer
        ∧ (Pull cfg doc fs quickPickChoice dialogChoice).doc.fileName
            = doc.fileName
        ∧ (Pull cfg doc fs quickPickChoice dialogChoice).events
            = (if doc.isDirty then [Ev.save doc.fileName doc.buffer] else [])
        ∧ (doc.isDirty = false →
            Pull cfg doc fs quickPickChoice dialogChoice
              = ⟨doc, fs, [], true, shown⟩) := by
  intro cfg doc fs quickPickChoice dialogChoice f shown hsel hne hread
  have h := applyCopy_fail f doc fs shown hne hread
  cases hd : doc.isDirty with
  | false => simp [Pull, hsel, h, hd]
  | true => simp [Pull, hsel, h, hd]

/-- C7 witness: a clean document and a missing source file: the pull throws
and the whole state is untouched. -/
theorem read_failure_no_replace_witness :
    SelectFileE ⟨false, false⟩ ⟨"/d/a.txt", "old", false⟩
        ⟨[("/d", ["a.txt"])], [("/d/a.txt", "old")]⟩ none (some "/d/x.txt")
        = .ok (some "/d/x.txt", none)
      ∧ readFile ⟨[("/d", ["a.txt"])], [("/d/a.txt", "old")]⟩ "/d/x.txt" = none
      ∧ ((Pull ⟨false, false⟩ ⟨"/d/a.txt", "old", false⟩
            ⟨[("/d", ["a.txt"])], [("/d/a.txt", "old")]⟩ none
            (some "/d/x.txt")).threw = true
          ∧ (Pull ⟨false, false⟩ ⟨"/d/a.txt", "old", false⟩
              ⟨[("/d", ["a.txt"])], [("/d/a.txt", "old")]⟩ none
              (some "/d/x.txt")).doc.buffer = "old"
          ∧ (Pull ⟨false, false⟩ ⟨"/d/a.txt", "old", false⟩
              ⟨[("/d", ["a.txt"])], [("/d/a.txt", "old")]⟩ none
              (some "/d/x.txt")).doc.fileName = "/d/a.txt"
          ∧ (Pull ⟨false, false⟩ ⟨"/d/a.txt", "old", false⟩
              ⟨[("/d", ["a.txt"])], [("/d/a.txt", "old")]⟩ none
              (some "/d/x.txt")).events = []
          ∧ ((⟨"/d/a.txt", "old", false⟩ : Document).isDirty = false →
              Pull ⟨false, false⟩ ⟨"/d/a.txt", "old", false⟩
                  ⟨[("/d", ["a.txt"])], [("/d/a.txt", "old")]⟩ none
                  (some "/d/x.txt")
                = ⟨⟨"/d/a.txt", "old", false⟩,
                   ⟨[("/d", ["a.txt"])], [("/d/a.txt", "old")]⟩, [], true,
                   none⟩)) :=
  ⟨rfl, by decide,
    read_failure_no_replace ⟨false, false⟩ ⟨"/d/a.txt", "old", false⟩
      ⟨[("/d", ["a.txt"])], [("/d/a.txt", "old")]⟩ none (some "/d/x.txt")
      "/d/x.txt" none rfl (by decide) (by decide)⟩

/-- C8 counterexample: for a document whose enclosing folder cannot be read
(the nearest state to "no enclosing folder can be determined" the code can
encounter), the invocation is not a silent no-op: candidate enumeration is
attempted and its exception propagates. -/
theorem unresolvable_folder_not_silent :
    (Pull ⟨true, true⟩ ⟨"/gone/a.txt", "text", false⟩
        ⟨[], [("/gone/a.txt", "text")]⟩ none none).threw = true
      ∧ (Pull ⟨true, true⟩ ⟨"/gone/a.txt", "text", false⟩
          ⟨[], [("/gone/a.txt", "text")]⟩ none none).doc
          = ⟨"/gone/a.txt", "text", false⟩
      ∧ (Pull ⟨true, true⟩ ⟨"/gone/a.txt", "text", false⟩
          ⟨[], [("/gone/a.txt", "text")]⟩ none none).fs
          = ⟨[], [("/gone/a.txt", "text")]⟩ := by
  decide

/-- C8 (amended): the code never tests for an unresolvable folder —
`path.dirname` always yields a directory string and enumeration is attempted
on every quick-pick invocation; when the derived folder cannot be read the
exception propagates (no prompt, no mutation), rather than the workflow
silently no-opping. -/
theorem unreadable_folder_propagates :
    ∀ (cfg : Config) (doc : Document) (fs : FS)
      (quickPickChoice dialogChoice : Option String),
      cfg.useQuickPick = true →
      readdirSync fs (dirname doc.fileName) = none →
      Pull cfg doc fs quickPickChoice dialogChoice = ⟨doc, fs, [], true, none⟩ := by
  intro cfg doc fs quickPickChoice dialogChoice hq hr
  obtain ⟨uq, inc⟩ := cfg
  simp only at hq
  subst hq
  simp [Pull, SelectFileE, hr]

/-- C8 witness: a file whose folder is absent from the file system. -/
theorem unreadable_folder_propagates_witness :
    readdirSync ⟨[], [("/gone/a.txt", "text")]⟩ (dirname "/gone/a.txt") = none
      ∧ Pull ⟨true, false⟩ ⟨"/gone/a.txt", "text", false⟩
          ⟨[], [("/gone/a.txt", "text")]⟩ (some "b.txt") (some "/x")
          = ⟨⟨"/gone/a.txt", "text", false⟩, ⟨[], [("/gone/a.txt", "text")]⟩,
             [], true, none⟩ :=
  ⟨by decide,
    unreadable_folder_propagates ⟨true, false⟩ ⟨"/gone/a.txt", "text", false⟩
      ⟨[], [("/gone/a.txt", "text")]⟩ (some "b.txt") (some "/x") rfl
      (by decide)⟩

/-- C9: pulling a readable source file whose extension differs from the
active document's leaves the document's path (hence extension) unchanged
while its buffer and its on-disk file take the source content verbatim. -/
theorem mismatched_extension_keeps_path :
    ∀ (cfg : Config) (doc : Document) (fs : FS)
      (quickPickChoice dialogChoice : Option String) (f : String)
      (shown : Option (List String)) (content : String),
      SelectFileE cfg doc fs quickPickChoice dialogChoice = .ok (some f, shown) →
      extname f ≠ extname doc.fileName →
      readFile fs f = some content →
      (Pull cfg doc fs quickPickChoice dialogChoice).doc.fileName = doc.fileName
        ∧ extname (Pull cfg doc fs quickPickChoice dialogChoice).doc.fileName
            = extname doc.fileName
        ∧ (Pull cfg doc fs quickPickChoice dialogChoice).doc.buffer = content
        ∧ readFile (Pull cfg doc fs quickPickChoice dialogChoice).fs doc.fileName
            = some content
        ∧ (Pull cfg doc fs quickPickChoice dialogChoice).threw = false := by
  intro cfg doc fs quickPickChoice dialogChoice f shown content hsel hext hread
  have hne : f ≠ doc.fileName := fun h => hext (by rw [h])
  have h := applyCopy_success f doc fs shown content hne hread
  simp [Pull, hsel, h, readFile_writeFile_self]

/-- C9 witness: active document `/d/a.foo` pulls `/d/b.bar` through the
native dialog; the path stays `/d/a.foo` (extension `.foo`) with content
"BAR". -/
theorem mismatched_extension_keeps_path_witness :
    SelectFileE ⟨false, true⟩ ⟨"/d/a.foo", "x", false⟩
        ⟨[], [("/d/b.bar", "BAR")]⟩ none (some "/d/b.bar")
        = .ok (some "/d/b.bar", none)
      ∧ extname "/d/b.bar" ≠ extname "/d/a.foo"
      ∧ ((Pull ⟨false, true⟩ ⟨"/d/a.foo", "x", false⟩
            ⟨[], [("/d/b.bar", "BAR")]⟩ none (some "/d/b.bar")).doc.fileName
            = "/d/a.foo"
          ∧ extname (Pull ⟨false, true⟩ ⟨"/d/a.foo", "x", false⟩
              ⟨[], [("/d/b.bar", "BAR")]⟩ none
              (some "/d/b.bar")).doc.fileName = extname "/d/a.foo"
          ∧ (Pull ⟨false, true⟩ ⟨"/d/a.foo", "x", false⟩
              ⟨[], [("/d/b.bar", "BAR")]⟩ none (some "/d/b.bar")).doc.buffer
              = "BAR"
          ∧ readFile (Pull ⟨false, true⟩ ⟨"/d/a.foo", "x", false⟩
              ⟨[], [("/d/b.bar", "BAR")]⟩ none (some "/d/b.bar")).fs
              "/d/a.foo" = some "BAR"
          ∧ (Pull ⟨false, true⟩ ⟨"/d/a.foo", "x", false⟩
              ⟨[], [("/d/b.bar", "BAR")]⟩ none (some "/d/b.bar")).threw
              = false) :=
  ⟨rfl, by decide,
    mismatched_extension_keeps_path ⟨false, true⟩ ⟨"/d/a.foo", "x", false⟩
      ⟨[], [("/d/b.bar", "BAR")]⟩ none (some "/d/b.bar") "/d/b.bar" none "BAR"
      rfl (by decide) (by decide)⟩

/-- C10: in the later revision, both selection methods return `undefined` at
their own level (their `return`s sit in discarded `.then` callbacks), so
`SelectFile` always resolves to `undefined` and `Pull` never invokes
`CopyFile`: for every configuration, state and user choice the document and
file system are unchanged and no save or copy effect occurs. -/
theorem revision2_never_modifies :
    (∀ (inc : Bool) (dir : String) (quickPickChoice dialogChoice : Option String),
        SelectFileWithQuickPickR2 inc dir quickPickChoice dialogChoice = none)
      ∧ (∀ dialogChoice : Option String,
          SelectFileWithOpenDialogR2 dialogChoice = none)
      ∧ (∀ (cfg : Config) (dir : String)
            (quickPickChoice dialogChoice : Option String),
          SelectFileR2 cfg dir quickPickChoice dialogChoice = none)
      ∧ (∀ (cfg : Config) (doc : Document) (fs : FS)
            (quickPickChoice dialogChoice : Option String),
          (PullR2 cfg doc fs quickPickChoice dialogChoice).doc = doc
            ∧ (PullR2 cfg doc fs quickPickChoice dialogChoice).fs = fs
            ∧ (PullR2 cfg doc fs quickPickChoice dialogChoice).events = []) := by
  refine ⟨fun _ _ _ _ => rfl, fun _ => rfl, ?_, ?_⟩
  · intro cfg dir quickPickChoice dialogChoice
    obtain ⟨uq, inc⟩ := cfg
    cases uq <;>
      simp [SelectFileR2, SelectFileWithQuickPickR2, SelectFileWithOpenDialogR2]
  · intro cfg doc fs quickPickChoice dialogChoice
    obtain ⟨uq, inc⟩ := cfg
    cases uq with
    | false =>
      simp [PullR2, SelectFileWithOpenDialogR2]
    | true =>
      cases hr : readdirSync fs (dirname doc.fileName) with
      | none => simp [PullR2, hr]
      | some listing => simp [PullR2, hr, SelectFileWithQuickPickR2]

end PullFile
